import Mathlib

/-!
Verification development for the Synap Python SDK
(`sdks/python/synap_sdk/`): a shallow embedding of the transport
envelope (`client.py`), the configuration (`config.py`) and the
command builders for transactions, hashes and bitmaps
(`modules/transaction.py`, `modules/hash.py`, `modules/bitmap.py`),
together with theorems settling the specification claims about them.
-/

namespace Synap

/-- JSON values as decoded by `response.json()`. Numbers are modelled as
integers (no property under study involves floating point). -/
inductive Json where
  | null
  | bool (b : Bool)
  | num (n : Int)
  | str (s : String)
  | arr (elems : List Json)
  | obj (fields : List (String × Json))
deriving Repr

/-- Python truthiness of a decoded JSON value (`bool(v)`): `None`,
`False`, `0`, `""`, `[]` and `{}` are falsy, everything else truthy. -/
def Json.truthy : Json → Bool
  | .null => false
  | .bool b => b
  | .num n => n != 0
  | .str s => s != ""
  | .arr xs => !xs.isEmpty
  | .obj kvs => !kvs.isEmpty

/-- `isinstance(result, dict)`. -/
def Json.isObj : Json → Bool
  | .obj _ => true
  | _ => false

/-- Key lookup in a decoded JSON object (`d[k]` / `k in d` support);
`none` when the value is not an object or the key is absent. Decoded
Python dicts hold each key at most once, so first-match lookup is exact. -/
def Json.getKey? : Json → String → Option Json
  | .obj kvs, k => kvs.lookup k
  | _, _ => none

/-- `k in result` for a decoded object. -/
def Json.hasKey (j : Json) (k : String) : Bool := (j.getKey? k).isSome

/-- `result.get(k, d)`. -/
def Json.getD (j : Json) (k : String) (d : Json) : Json := (j.getKey? k).getD d

/-- A single apostrophe, the quote Python `repr` puts around strings. -/
def sq : String := String.singleton (Char.ofNat 39)

mutual

/-- Python `repr` of a decoded JSON value, used by `str` on containers.
Faithful on `None`, booleans, integers and the container structure;
Python quote-preference and escape subtleties inside string literals are
not reproduced (no property under study depends on them). -/
def pyRepr : Json → String
  | .null => "None"
  | .bool true => "True"
  | .bool false => "False"
  | .num n => toString n
  | .str s => sq ++ s ++ sq
  | .arr xs => "[" ++ String.intercalate ", " (pyReprList xs) ++ "]"
  | .obj kvs => "\x7b" ++ String.intercalate ", " (pyReprObj kvs) ++ "\x7d"

/-- `repr` of each element of a list. -/
def pyReprList : List Json → List String
  | [] => []
  | x :: xs => pyRepr x :: pyReprList xs

/-- `repr` of each entry of a dict. -/
def pyReprObj : List (String × Json) → List String
  | [] => []
  | (k, v) :: kvs => (sq ++ k ++ sq ++ ": " ++ pyRepr v) :: pyReprObj kvs

end

/-- Python `str(v)` of a decoded JSON value: identity on strings,
`repr` otherwise. -/
def pyStr : Json → String
  | .str s => s
  | v => pyRepr v

/-- The `SynapException` error taxonomy. The exception class lives in
`synap_sdk/exceptions.py` (present in the repository only through its
tests); each constructor models one factory method
(`SynapException(...)`, `invalid_response`, `server_error`,
`http_error`, `network_error`) and carries the raw message the caller
passes, as exercised by `tests/test_exceptions.py`. `valueError` models
the plain Python `ValueError` raised by local argument validation. -/
inductive SynapError where
  | generic (msg : String)
  | invalidResponse (msg : String)
  | serverError (msg : String)
  | httpError (msg : String) (status : Nat)
  | networkError (msg : String)
  | valueError (msg : String)
deriving Repr, DecidableEq

/-- The body of an HTTP response as the client observes it:
`empty` when `response.text` is empty, `malformed` when the non-empty
text makes `response.json()` raise (carrying the parse-error text), and
`json` when it parses. -/
inductive HttpBody where
  | empty
  | malformed (err : String)
  | json (v : Json)
deriving Repr

/-- An HTTP response: status code plus decoded body. -/
structure HttpResponse where
  status : Nat
  body : HttpBody
deriving Repr

/-- `response.is_success` (httpx): status in the 2xx range. -/
def HttpResponse.isSuccess (r : HttpResponse) : Bool :=
  200 ≤ r.status && r.status < 300

/-- Response processing of `SynapClient.send_command`
(`client.py` lines 188-210): empty body returns `{}`; an unparseable
body raises invalid-response; a parsed object with a falsy `success`
raises server-error with `str` of the `error` field (default
`"Unknown server error"`); then a non-2xx status raises http-error;
otherwise the `payload` field (default `{}`) is returned, with `{}`
for a non-object body. -/
def sendCommand (resp : HttpResponse) : Except SynapError Json :=
  match resp.body with
  | .empty => .ok (Json.obj [])
  | .malformed e =>
      .error (.invalidResponse ("Failed to parse JSON response: " ++ e))
  | .json result =>
      if result.isObj && !(result.getD "success" (Json.bool true)).truthy then
        .error (.serverError (pyStr (result.getD "error" (Json.str "Unknown server error"))))
      else if !resp.isSuccess then
        .error (.httpError ("Request failed with status " ++ toString resp.status) resp.status)
      else
        .ok (if result.isObj then result.getD "payload" (Json.obj []) else Json.obj [])

/-- Response processing of `SynapClient.execute` (legacy envelope,
`client.py` lines 241-261): as `sendCommand`, except that the failure
signal is the mere presence of an `error` key in the parsed object
(`"error" in result`), and the whole object is returned on success. -/
def executeResp (resp : HttpResponse) : Except SynapError Json :=
  match resp.body with
  | .empty => .ok (Json.obj [])
  | .malformed e =>
      .error (.invalidResponse ("Failed to parse JSON response: " ++ e))
  | .json result =>
      if result.isObj && result.hasKey "error" then
        .error (.serverError (pyStr (result.getD "error" Json.null)))
      else if !resp.isSuccess then
        .error (.httpError ("Request failed with status " ++ toString resp.status) resp.status)
      else
        .ok (if result.isObj then result else Json.obj [])

/-- Outcome of the underlying `httpx` POST: either a response, or an
`httpx.HTTPError` raised by the transport. -/
inductive HttpOutcome where
  | response (r : HttpResponse)
  | httpxError (msg : String)
deriving Repr

/-- `send_command` including the surrounding `except httpx.HTTPError`
handler, which re-signals transport failures as network errors. -/
def sendCommandOutcome : HttpOutcome → Except SynapError Json
  | .httpxError m => .error (.networkError m)
  | .response r => sendCommand r

/-- Python truthiness of an `Optional[str]` argument: `None` and the
empty string are falsy. -/
def optTruthy : Option String → Bool
  | none => false
  | some s => s != ""

/-- Python `str.strip()`: whitespace trimmed from both ends. -/
def pyStrip (s : String) : String :=
  String.mk (((s.data.dropWhile Char.isWhitespace).reverse.dropWhile
    Char.isWhitespace).reverse)

/-- Python `str.rstrip("/")`: trailing slash characters removed. -/
def rstripSlash (s : String) : String :=
  String.mk ((s.data.reverse.dropWhile (fun c => c == Char.ofNat 47)).reverse)

/-- A constructed `SynapConfig` value: the fields `__init__` stores
(`config.py` lines 43-48). -/
structure SynapConfig where
  base_url : String
  timeout : Int
  auth_token : Option String
  username : Option String
  password : Option String
  max_retries : Int
deriving Repr, DecidableEq

/-- `SynapConfig.__init__` (`config.py` lines 26-48): rejects an empty or
blank base URL, then rejects a truthy `auth_token` combined with a truthy
`username` or `password`, and otherwise stores the base URL with trailing
slashes removed. Defaults: `timeout=30`, `max_retries=3`, no
credentials. -/
def SynapConfig.make (base_url : String) (timeout : Int)
    (auth_token username password : Option String) (max_retries : Int) :
    Except SynapError SynapConfig :=
  if base_url == "" || pyStrip base_url == "" then
    .error (.generic "Base URL cannot be empty")
  else if optTruthy auth_token && (optTruthy username || optTruthy password) then
    .error (.generic "Cannot use both auth_token and Basic Auth (username/password)")
  else
    .ok ⟨rstripSlash base_url, timeout, auth_token, username, password, max_retries⟩

/-- `SynapConfig.with_timeout`: a copy with a new timeout, built through
`__init__`. -/
def SynapConfig.with_timeout (c : SynapConfig) (timeout : Int) :
    Except SynapError SynapConfig :=
  SynapConfig.make c.base_url timeout c.auth_token c.username c.password c.max_retries

/-- `SynapConfig.with_auth_token`: a copy with a bearer token and the
basic-auth credentials cleared, built through `__init__`. -/
def SynapConfig.with_auth_token (c : SynapConfig) (token : String) :
    Except SynapError SynapConfig :=
  SynapConfig.make c.base_url c.timeout (some token) none none c.max_retries

/-- `SynapConfig.with_basic_auth`: a copy with username/password and the
bearer token cleared, built through `__init__`. -/
def SynapConfig.with_basic_auth (c : SynapConfig) (username password : String) :
    Except SynapError SynapConfig :=
  SynapConfig.make c.base_url c.timeout none (some username) (some password) c.max_retries

/-- `SynapConfig.with_max_retries`: a copy with a new retry budget, built
through `__init__`. -/
def SynapConfig.with_max_retries (c : SynapConfig) (retries : Int) :
    Except SynapError SynapConfig :=
  SynapConfig.make c.base_url c.timeout c.auth_token c.username c.password retries

/-- A transport invocation: the command name and the payload a module
passes to `send_command`. -/
structure Request where
  command : String
  payload : List (String × Json)
deriving Repr

/-- The payload idiom shared by every transaction operation
(`transaction.py`): `if client_id: payload["client_id"] = client_id` —
the key is added only for a truthy (non-`None`, non-empty)
identifier. -/
def addClientId (payload : List (String × Json)) :
    Option String → List (String × Json)
  | some cid => if cid == "" then payload else payload ++ [("client_id", Json.str cid)]
  | none => payload

/-- Request built by `TransactionManager.multi` (lines 73-77). -/
def TransactionManager.multiRequest (clientId : Option String) : Request :=
  ⟨"transaction.multi", addClientId [] clientId⟩

/-- Request built by `TransactionManager.discard` (lines 96-100). -/
def TransactionManager.discardRequest (clientId : Option String) : Request :=
  ⟨"transaction.discard", addClientId [] clientId⟩

/-- Request built by `TransactionManager.unwatch` (lines 151-155). -/
def TransactionManager.unwatchRequest (clientId : Option String) : Request :=
  ⟨"transaction.unwatch", addClientId [] clientId⟩

/-- Request built by `TransactionManager.exec` (lines 180-184). -/
def TransactionManager.execRequest (clientId : Option String) : Request :=
  ⟨"transaction.exec", addClientId [] clientId⟩

/-- `TransactionManager.watch` (lines 125-132): an empty key list raises
`ValueError` before any transport call; otherwise the request carries the
keys and, when truthy, the correlation identifier. -/
def TransactionManager.watchRequest (keys : List String)
    (clientId : Option String) : Except SynapError Request :=
  if keys.isEmpty then
    .error (.valueError "Transaction watch requires at least one key")
  else
    .ok ⟨"transaction.watch",
      addClientId [("keys", Json.arr (keys.map Json.str))] clientId⟩

/-- Result of `TransactionManager.exec`: the code returns either
`{"success": True, "results": ...}` or
`{"success": False, "aborted": True, "message": response.get("message")}`.
The `message` field is `Json.null` when the key is absent, matching
Python `dict.get` returning `None`. -/
inductive TransactionExecResult where
  | success (results : List Json)
  | aborted (message : Json)
deriving Repr

/-- Response interpretation of `TransactionManager.exec`
(`transaction.py` lines 186-196): success exactly when the decoded
response has a `results` key holding a list. -/
def TransactionManager.execDecode (response : Json) : TransactionExecResult :=
  match response.getKey? "results" with
  | some (Json.arr rs) => .success rs
  | _ => .aborted (response.getD "message" Json.null)

/-- `TransactionManager.exec` end to end: the payload `send_command`
returns for the given HTTP response, interpreted by `execDecode`. -/
def TransactionManager.execPipeline (resp : HttpResponse) :
    Except SynapError TransactionExecResult :=
  (sendCommand resp).map TransactionManager.execDecode

/-- The two accepted shapes of `HashManager.mset`'s `fields` argument:
a mapping of field→value, or a list of records each holding a `field`
name and a `value`. -/
inductive MsetFields where
  | dict (kvs : List (String × Json))
  | records (rs : List (String × Json))
deriving Repr

/-- Request construction of `HashManager.mset` (`hash.py` lines
160-167): a list input is sent as an array of `{field, value}` records
with `str`-ed values; a dict input is sent as a mapping with `str`-ed
values. -/
def HashManager.msetRequest (key : String) (fields : MsetFields) : Request :=
  match fields with
  | .records rs =>
      ⟨"hash.mset",
        [("key", Json.str key),
         ("fields", Json.arr (rs.map fun r =>
            Json.obj [("field", Json.str r.1), ("value", Json.str (pyStr r.2))]))]⟩
  | .dict kvs =>
      ⟨"hash.mset",
        [("key", Json.str key),
         ("fields", Json.obj (kvs.map fun kv => (kv.1, Json.str (pyStr kv.2))))]⟩

/-- `BitmapManager.bitop` validation and request construction
(`bitmap.py` lines 180-193). An `Except` error is a `ValueError` raised
before any transport call. -/
def BitmapManager.bitop (operation destination : String)
    (source_keys : List String) : Except SynapError Request :=
  if operation == "NOT" && source_keys.length != 1 then
    .error (.valueError "NOT operation requires exactly one source key")
  else if source_keys.isEmpty then
    .error (.valueError "BITOP requires at least one source key")
  else
    .ok ⟨"bitmap.bitop",
      [("destination", Json.str destination),
       ("operation", Json.str operation),
       ("source_keys", Json.arr (source_keys.map Json.str))]⟩

/-- The transport invocations `bitop` performs: none when validation
raises, exactly one otherwise. -/
def BitmapManager.bitopCalls (operation destination : String)
    (source_keys : List String) : List Request :=
  match BitmapManager.bitop operation destination source_keys with
  | .error _ => []
  | .ok r => [r]

/-- Claim C1: for every decoded response to `transaction.exec`, a
`results` key holding a list (an empty list included) yields the success
outcome with exactly that list; a response without a `results` list
yields the aborted outcome carrying the response's optional `message`;
and across every 2xx status the pipeline outcome is the same function of
the decoded payload, so commit/abort is never inferred from the HTTP
status alone. -/
theorem exec_outcome_determined_by_results (kvs : List (String × Json)) :
    (∀ rs : List Json, kvs.lookup "results" = some (Json.arr rs) →
      TransactionManager.execDecode (Json.obj kvs) = .success rs)
    ∧ ((∀ rs : List Json, kvs.lookup "results" ≠ some (Json.arr rs)) →
      TransactionManager.execDecode (Json.obj kvs)
        = .aborted ((Json.obj kvs).getD "message" Json.null))
    ∧ (∀ status : Nat, 200 ≤ status → status < 300 →
      TransactionManager.execPipeline
          ⟨status, .json (Json.obj [("payload", Json.obj kvs)])⟩
        = .ok (TransactionManager.execDecode (Json.obj kvs))) := by
  refine ⟨?_, ?_, ?_⟩
  · intro rs h
    simp [TransactionManager.execDecode, Json.getKey?, h]
  · intro h
    unfold TransactionManager.execDecode
    cases hl : (Json.obj kvs).getKey? "results" with
    | none => rfl
    | some v =>
      cases v with
      | arr rs => exact absurd (by simpa [Json.getKey?] using hl) (h rs)
      | null => rfl
      | bool b => rfl
      | num n => rfl
      | str s => rfl
      | obj l => rfl
  · intro status h1 h2
    have hs : (⟨status, .json (Json.obj [("payload", Json.obj kvs)])⟩ :
        HttpResponse).isSuccess = true := by
      simp only [HttpResponse.isSuccess, Bool.and_eq_true, decide_eq_true_eq]
      exact ⟨h1, h2⟩
    unfold TransactionManager.execPipeline
    have hsend : sendCommand
        ⟨status, .json (Json.obj [("payload", Json.obj kvs)])⟩
        = .ok (Json.obj kvs) := by
      simp [sendCommand, hs, Json.isObj, Json.getD, Json.getKey?, Json.truthy,
        List.lookup]
    rw [hsend]
    rfl

/-- Witness for C1 at concrete inputs: a present empty `results` list is
a success with `[]`; a response with only a `message` aborts with that
message; a 200-status pipeline run with a one-element `results` list
commits with it. -/
theorem exec_outcome_witness :
    TransactionManager.execDecode (Json.obj [("results", Json.arr [])])
      = .success []
    ∧ TransactionManager.execDecode (Json.obj [("message", Json.str "conflict")])
      = .aborted (Json.str "conflict")
    ∧ TransactionManager.execPipeline
        ⟨200, .json (Json.obj [("payload",
          Json.obj [("results", Json.arr [Json.num 1])])])⟩
      = .ok (.success [Json.num 1]) := by
  refine ⟨(exec_outcome_determined_by_results [("results", Json.arr [])]).1 [] rfl,
    (exec_outcome_determined_by_results
      [("message", Json.str "conflict")]).2.1 ?_,
    (exec_outcome_determined_by_results
      [("results", Json.arr [Json.num 1])]).2.2 200 (by omega) (by omega)⟩
  intro rs h
  exact Option.noConfusion h

/-- Claim C2 counterexample: the parsed object `{"success": null}` has a
`success` value that is not the boolean `false`, yet `send_command`
raises a server error for it on a 200 response — the success check is
Python truthiness, not an explicit-`false` test. -/
theorem send_command_success_null_counterexample :
    Json.null ≠ Json.bool false
    ∧ ([("success", Json.null)] : List (String × Json)).lookup "success"
        = some Json.null
    ∧ sendCommand ⟨200, .json (Json.obj [("success", Json.null)])⟩
        = .error (.serverError "Unknown server error") :=
  ⟨fun h => Json.noConfusion h, rfl, rfl⟩

/-- Claim C2 (amended): a parsed object with no `success` key is treated
as successful (the success check raises no server error), and a present
`success` value signals failure exactly when it is falsy in Python's
sense — the explicit boolean `false`, but equally `null`, `0`, the empty
string, the empty array or the empty object. -/
theorem send_command_success_defaulting
    (kvs : List (String × Json)) (status : Nat) :
    (kvs.lookup "success" = none →
      ∀ m, sendCommand ⟨status, .json (Json.obj kvs)⟩
        ≠ .error (.serverError m))
    ∧ (∀ v, kvs.lookup "success" = some v → v.truthy = false →
      sendCommand ⟨status, .json (Json.obj kvs)⟩
        = .error (.serverError
            (pyStr ((Json.obj kvs).getD "error" (Json.str "Unknown server error")))))
    ∧ (∀ v, kvs.lookup "success" = some v → v.truthy = true →
      ∀ m, sendCommand ⟨status, .json (Json.obj kvs)⟩
        ≠ .error (.serverError m)) := by
  refine ⟨?_, ?_, ?_⟩
  · intro h m
    simp only [sendCommand, Json.isObj, Json.getD, Json.getKey?, h,
      Option.getD, Json.truthy, Bool.and_eq_true, Bool.not_eq_eq_eq_not,
      Bool.not_true]
    split
    · simp_all
    · split
      · intro hc
        exact SynapError.noConfusion (Except.error.inj hc)
      · intro hc
        exact Except.noConfusion hc
  · intro v h hfalsy
    simp [sendCommand, Json.isObj, Json.getD, Json.getKey?, h, hfalsy]
  · intro v h htruthy m
    simp only [sendCommand, Json.isObj, Json.getD, Json.getKey?, h,
      Option.getD, htruthy]
    split
    · simp_all
    · split
      · intro hc
        exact SynapError.noConfusion (Except.error.inj hc)
      · intro hc
        exact Except.noConfusion hc

/-- Witness for C2 (amended) at concrete inputs: no `success` key on an
empty object raises no server error; `success: false` raises the default
server error; a truthy `success: true` raises no server error. -/
theorem send_command_success_defaulting_witness :
    sendCommand ⟨200, .json (Json.obj [])⟩ ≠ .error (.serverError "x")
    ∧ sendCommand ⟨200, .json (Json.obj [("success", Json.bool false)])⟩
        = .error (.serverError "Unknown server error")
    ∧ sendCommand ⟨500, .json (Json.obj [("success", Json.bool true)])⟩
        ≠ .error (.serverError "x") :=
  ⟨(send_command_success_defaulting [] 200).1 rfl "x",
    (send_command_success_defaulting [("success", Json.bool false)] 200).2.1
      (Json.bool false) rfl rfl,
    (send_command_success_defaulting [("success", Json.bool true)] 500).2.2
      (Json.bool true) rfl rfl "x"⟩

/-- Claim C3: when the parsed body has `success` equal to the boolean
`false`, `send_command` raises a server error carrying the `error` field
text verbatim when that field is a string, and the default message
`"Unknown server error"` when the field is absent; the status is
universally quantified, so the server-error check fires before — and
regardless of — the HTTP-status check. -/
theorem send_command_server_error_priority
    (kvs : List (String × Json)) (status : Nat)
    (hfalse : kvs.lookup "success" = some (Json.bool false)) :
    (∀ s, kvs.lookup "error" = some (Json.str s) →
      sendCommand ⟨status, .json (Json.obj kvs)⟩ = .error (.serverError s))
    ∧ (kvs.lookup "error" = none →
      sendCommand ⟨status, .json (Json.obj kvs)⟩
        = .error (.serverError "Unknown server error")) := by
  constructor
  · intro s herr
    simp [sendCommand, Json.isObj, Json.getD, Json.getKey?, Json.truthy,
      hfalse, herr, pyStr]
  · intro herr
    simp [sendCommand, Json.isObj, Json.getD, Json.getKey?, Json.truthy,
      hfalse, herr, pyStr]

/-- Witness for C3 at concrete inputs: `success: false` with
`error: "boom"` on a 500 response raises `Server Error "boom"` (the
failing HTTP status notwithstanding), and with no `error` field on a 404
response raises the default message. -/
theorem send_command_server_error_priority_witness :
    sendCommand ⟨500, .json (Json.obj
        [("success", Json.bool false), ("error", Json.str "boom")])⟩
      = .error (.serverError "boom")
    ∧ sendCommand ⟨404, .json (Json.obj [("success", Json.bool false)])⟩
      = .error (.serverError "Unknown server error") :=
  ⟨(send_command_server_error_priority
      [("success", Json.bool false), ("error", Json.str "boom")] 500 rfl).1
      "boom" rfl,
    (send_command_server_error_priority
      [("success", Json.bool false)] 404 rfl).2 rfl⟩

/-- Claim C4 counterexample: the legacy `execute` body `{"error": ""}`
carries no non-empty `error` value (the empty string is falsy), yet on a
200 response `execute` raises a server error for it — the failure signal
is the mere presence of the `error` key, not its non-emptiness. -/
theorem execute_empty_error_counterexample :
    Json.truthy (Json.str "") = false
    ∧ executeResp ⟨200, .json (Json.obj [("error", Json.str "")])⟩
        = .error (.serverError "") :=
  ⟨rfl, rfl⟩

/-- Claim C4 (amended): for the legacy `execute` envelope, the presence
of an `error` key — whatever its value, the empty string included — is
itself the failure signal, raising a server error carrying `str` of that
value; the status is universally quantified, so the check precedes the
HTTP-status check; a body without an `error` key raises no server error
from this check. -/
theorem execute_error_key_is_failure_signal
    (kvs : List (String × Json)) (status : Nat) :
    (∀ v, kvs.lookup "error" = some v →
      executeResp ⟨status, .json (Json.obj kvs)⟩
        = .error (.serverError (pyStr v)))
    ∧ (kvs.lookup "error" = none →
      ∀ m, executeResp ⟨status, .json (Json.obj kvs)⟩
        ≠ .error (.serverError m)) := by
  constructor
  · intro v herr
    simp [executeResp, Json.isObj, Json.hasKey, Json.getD, Json.getKey?, herr]
  · intro herr m
    simp only [executeResp, Json.isObj, Json.hasKey, Json.getD, Json.getKey?,
      herr, Option.isSome_none, Bool.and_false]
    split
    · simp_all
    · split
      · intro hc
        exact SynapError.noConfusion (Except.error.inj hc)
      · intro hc
        exact Except.noConfusion hc

/-- Witness for C4 (amended) at concrete inputs: `{"error": "oops"}` on
a 500 response raises `Server Error "oops"` before any HTTP-status
error; `{}` on a 200 response raises no server error. -/
theorem execute_error_key_witness :
    executeResp ⟨500, .json (Json.obj [("error", Json.str "oops")])⟩
      = .error (.serverError "oops")
    ∧ executeResp ⟨200, .json (Json.obj [])⟩ ≠ .error (.serverError "x") :=
  ⟨(execute_error_key_is_failure_signal [("error", Json.str "oops")] 500).1
      (Json.str "oops") rfl,
    (execute_error_key_is_failure_signal [] 200).2 rfl "x"⟩

/-- Claim C5 counterexample: the non-empty body `[1, 2]` parses as JSON
but is not an envelope object, yet `send_command` on a 200 response
raises no invalid-response error — it silently returns the empty result
object. -/
theorem send_command_nonobject_counterexample :
    (Json.arr [Json.num 1, Json.num 2]).isObj = false
    ∧ sendCommand ⟨200, .json (Json.arr [Json.num 1, Json.num 2])⟩
        = .ok (Json.obj []) :=
  ⟨rfl, rfl⟩

/-- Claim C5 (amended): `send_command` raises the invalid-response error,
wrapping the parse failure, exactly for non-empty bodies that fail JSON
parsing; a body that parses to a non-object JSON value is not treated as
invalid — the envelope checks are skipped and the empty result object is
returned whenever the HTTP status is a success. -/
theorem send_command_invalid_response (status : Nat) :
    (∀ e, sendCommand ⟨status, .malformed e⟩
      = .error (.invalidResponse ("Failed to parse JSON response: " ++ e)))
    ∧ (∀ v, v.isObj = false → 200 ≤ status → status < 300 →
      sendCommand ⟨status, .json v⟩ = .ok (Json.obj [])) := by
  constructor
  · intro e
    rfl
  · intro v hv h1 h2
    have hs : (⟨status, .json v⟩ : HttpResponse).isSuccess = true := by
      simp only [HttpResponse.isSuccess, Bool.and_eq_true, decide_eq_true_eq]
      exact ⟨h1, h2⟩
    simp [sendCommand, hv, hs]

/-- Witness for C5 (amended) at concrete inputs: an unparseable body
raises the wrapped invalid-response error, and the JSON body `[]` on a
200 response returns the empty object. -/
theorem send_command_invalid_response_witness :
    sendCommand ⟨200, .malformed "Expecting value"⟩
      = .error (.invalidResponse
          "Failed to parse JSON response: Expecting value")
    ∧ sendCommand ⟨200, .json (Json.arr [])⟩ = .ok (Json.obj []) :=
  ⟨(send_command_invalid_response 200).1 "Expecting value",
    (send_command_invalid_response 200).2 (Json.arr []) rfl
      (by omega) (by omega)⟩

/-- Claim C6 counterexample: the mapping input `{"a": "1"}` and its
equivalent array-of-records input `[{"field": "a", "value": "1"}]`
produce different payloads — the mapping is sent as a JSON object, the
records as a JSON array; no normalization to one wire shape happens
before transport. -/
theorem mset_payload_shapes_counterexample :
    HashManager.msetRequest "k" (.dict [("a", Json.str "1")])
      ≠ HashManager.msetRequest "k" (.records [("a", Json.str "1")]) := by
  intro h
  simp [HashManager.msetRequest, pyStr] at h

/-- Claim C6 (amended): hash `mset` is a single command (`hash.mset`)
accepting two input shapes, but they are not normalized to one wire
shape: a mapping is sent as an object of field→`str(value)`, an array of
records as an array of `{field, value}` records with `str`-ed values;
for every mapping and its equivalent array-of-records the command names
coincide while the payloads always differ. -/
theorem mset_two_wire_shapes (key : String) (kvs : List (String × Json)) :
    (HashManager.msetRequest key (.dict kvs)).command
      = (HashManager.msetRequest key (.records kvs)).command
    ∧ (HashManager.msetRequest key (.dict kvs)).payload
      ≠ (HashManager.msetRequest key (.records kvs)).payload := by
  refine ⟨rfl, ?_⟩
  intro h
  simp [HashManager.msetRequest] at h

/-- Claim C7: `bitop` with operation `NOT` and a source-key list whose
length is not 1 raises the local `ValueError` and performs zero
transport invocations; an empty source-key list raises a local
`ValueError` for every operation, likewise before any transport
invocation. -/
theorem bitop_validation_no_network
    (destination : String) (source_keys : List String) :
    (source_keys.length ≠ 1 →
      BitmapManager.bitop "NOT" destination source_keys
        = .error (.valueError "NOT operation requires exactly one source key")
      ∧ BitmapManager.bitopCalls "NOT" destination source_keys = [])
    ∧ (∀ operation, source_keys = [] →
      (∃ m, BitmapManager.bitop operation destination source_keys
        = .error (.valueError m))
      ∧ BitmapManager.bitopCalls operation destination source_keys = []) := by
  constructor
  · intro hlen
    refine ⟨?_, ?_⟩
    · simp [BitmapManager.bitop, hlen]
    · simp [BitmapManager.bitopCalls, BitmapManager.bitop, hlen]
  · intro operation hempty
    subst hempty
    cases hop : (operation == "NOT") with
    | true =>
      refine ⟨⟨"NOT operation requires exactly one source key", ?_⟩, ?_⟩
      · simp [BitmapManager.bitop, hop]
      · simp [BitmapManager.bitopCalls, BitmapManager.bitop, hop]
    | false =>
      refine ⟨⟨"BITOP requires at least one source key", ?_⟩, ?_⟩
      · simp [BitmapManager.bitop, hop]
      · simp [BitmapManager.bitopCalls, BitmapManager.bitop, hop]

/-- Witness for C7 at concrete inputs: `NOT` with two source keys, and
`OR` with no source keys, both fail locally with zero transport
invocations. -/
theorem bitop_validation_witness :
    (BitmapManager.bitop "NOT" "dest" ["a", "b"]
      = .error (.valueError "NOT operation requires exactly one source key")
      ∧ BitmapManager.bitopCalls "NOT" "dest" ["a", "b"] = [])
    ∧ ((∃ m, BitmapManager.bitop "OR" "dest" []
        = .error (.valueError m))
      ∧ BitmapManager.bitopCalls "OR" "dest" [] = []) :=
  ⟨(bitop_validation_no_network "dest" ["a", "b"]).1 (by decide),
    (bitop_validation_no_network "dest" []).2 "OR" rfl⟩

theorem dropWhile_dropWhile {α : Type} (p : α → Bool) (l : List α) :
    (l.dropWhile p).dropWhile p = l.dropWhile p := by
  induction l with
  | nil => rfl
  | cons a l ih =>
    cases hp : p a
    · simp [List.dropWhile, hp]
    · simp [List.dropWhile, hp, ih]

/-- Removing trailing slashes is idempotent, so a stored base URL is
unchanged by re-normalization inside a `with_*` copy. -/
theorem rstripSlash_idem (s : String) :
    rstripSlash (rstripSlash s) = rstripSlash s := by
  unfold rstripSlash
  simp [dropWhile_dropWhile]

/-- Claim C8 counterexample: `SynapConfig("/")` constructs successfully
(the base URL `"/"` is neither empty nor blank), but normalization strips
it to the empty string, so `with_timeout` on this valid configuration
raises the configuration error instead of returning a new instance. -/
theorem with_timeout_raises_counterexample :
    SynapConfig.make "/" 30 none none none 3
      = .ok ⟨"", 30, none, none, none, 3⟩
    ∧ SynapConfig.with_timeout ⟨"", 30, none, none, none, 3⟩ 60
      = .error (.generic "Base URL cannot be empty") :=
  ⟨rfl, rfl⟩

/-- Claim C8 (amended): for every configuration constructed by
`__init__` whose stored base URL still contains a non-whitespace
character, each `with_*` method returns a new configuration value whose
targeted field equals the supplied value (with `with_auth_token` and
`with_basic_auth` clearing the other credential mode, as the source
does) and whose remaining fields are the receiver's; the methods are
pure functions of the receiver, which is never mutated. -/
theorem with_methods_pure
    (b : String) (t : Int) (a u p : Option String) (r : Int)
    (c : SynapConfig)
    (hok : SynapConfig.make b t a u p r = .ok c)
    (hblank : pyStrip c.base_url ≠ "")
    (v r2 : Int) (tok u2 p2 : String) :
    c.with_timeout v
      = .ok ⟨c.base_url, v, c.auth_token, c.username, c.password, c.max_retries⟩
    ∧ c.with_max_retries r2
      = .ok ⟨c.base_url, c.timeout, c.auth_token, c.username, c.password, r2⟩
    ∧ c.with_auth_token tok
      = .ok ⟨c.base_url, c.timeout, some tok, none, none, c.max_retries⟩
    ∧ c.with_basic_auth u2 p2
      = .ok ⟨c.base_url, c.timeout, none, some u2, some p2, c.max_retries⟩ := by
  unfold SynapConfig.make at hok
  split at hok
  · exact Except.noConfusion hok
  · split at hok
    · exact Except.noConfusion hok
    · rename_i hbase hcred
      obtain rfl : (⟨rstripSlash b, t, a, u, p, r⟩ : SynapConfig) = c :=
        Except.ok.inj hok
      have hne : rstripSlash b ≠ "" := by
        intro h
        exact hblank (by simp only [h]; rfl)
      refine ⟨?_, ?_, ?_, ?_⟩
      · simp [SynapConfig.with_timeout, SynapConfig.make, hne, hblank, hcred,
          rstripSlash_idem]
      · simp [SynapConfig.with_max_retries, SynapConfig.make, hne, hblank,
          hcred, rstripSlash_idem]
      · simp [SynapConfig.with_auth_token, SynapConfig.make, hne, hblank,
          optTruthy, rstripSlash_idem]
      · simp [SynapConfig.with_basic_auth, SynapConfig.make, hne, hblank,
          optTruthy, rstripSlash_idem]

/-- Witness for C8 (amended) at a concrete configuration: all four
`with_*` methods on `SynapConfig("http://h")` return new values with the
targeted field updated. -/
theorem with_methods_pure_witness :
    SynapConfig.with_timeout ⟨"http://h", 30, none, none, none, 3⟩ 60
      = .ok ⟨"http://h", 60, none, none, none, 3⟩
    ∧ SynapConfig.with_max_retries ⟨"http://h", 30, none, none, none, 3⟩ 5
      = .ok ⟨"http://h", 30, none, none, none, 5⟩
    ∧ SynapConfig.with_auth_token ⟨"http://h", 30, none, none, none, 3⟩ "tok"
      = .ok ⟨"http://h", 30, some "tok", none, none, 3⟩
    ∧ SynapConfig.with_basic_auth ⟨"http://h", 30, none, none, none, 3⟩ "u" "p"
      = .ok ⟨"http://h", 30, none, some "u", some "p", 3⟩ :=
  with_methods_pure "http://h" 30 none none none 3
    ⟨"http://h", 30, none, none, none, 3⟩ rfl (by decide) 60 5 "tok" "u" "p"

/-- Claim C9: constructing a configuration supplying a non-empty bearer
token together with a non-empty username/password pair always fails with
a configuration error (the base-URL error when the URL is also bad, the
cannot-use-both error otherwise); and no successfully constructed
configuration value ever has both credential modes active. -/
theorem config_rejects_both_credential_modes :
    (∀ (b : String) (t : Int) (tok u p : String) (r : Int),
      tok ≠ "" → u ≠ "" → p ≠ "" →
      SynapConfig.make b t (some tok) (some u) (some p) r
        = .error (.generic
            (if b == "" || pyStrip b == "" then "Base URL cannot be empty"
             else "Cannot use both auth_token and Basic Auth (username/password)")))
    ∧ (∀ (b : String) (t : Int) (a u p : Option String) (r : Int)
        (c : SynapConfig),
      SynapConfig.make b t a u p r = .ok c →
      ¬(optTruthy c.auth_token = true ∧ optTruthy c.username = true
        ∧ optTruthy c.password = true)) := by
  constructor
  · intro b t tok u p r htok hu hp
    cases hb : (b == "" || pyStrip b == "")
    · simp [SynapConfig.make, hb, optTruthy, htok, hu]
    · simp [SynapConfig.make, hb]
  · intro b t a u p r c hok
    unfold SynapConfig.make at hok
    split at hok
    · exact Except.noConfusion hok
    · split at hok
      · exact Except.noConfusion hok
      · rename_i hbase hcred
        obtain rfl : (⟨rstripSlash b, t, a, u, p, r⟩ : SynapConfig) = c :=
          Except.ok.inj hok
        rintro ⟨ha, hu2, hp2⟩
        simp only [Bool.not_eq_true, Bool.and_eq_false_iff,
          Bool.or_eq_false_iff] at hcred
        rcases hcred with h | ⟨h, _⟩ <;> simp_all

/-- Witness for C9 at concrete inputs: both credential modes on a good
URL fail with the cannot-use-both error, and a bearer-token-only
construction yields a value without active basic-auth credentials. -/
theorem config_rejects_both_credential_modes_witness :
    SynapConfig.make "http://localhost:15500" 30
        (some "tok") (some "user") (some "pass") 3
      = .error (.generic
          "Cannot use both auth_token and Basic Auth (username/password)")
    ∧ ¬(optTruthy (some "tok") = true ∧ optTruthy (none : Option String) = true
        ∧ optTruthy (none : Option String) = true) :=
  ⟨(config_rejects_both_credential_modes).1 "http://localhost:15500" 30
      "tok" "user" "pass" 3 (by decide) (by decide) (by decide),
    (config_rejects_both_credential_modes).2 "http://localhost:15500" 30
      (some "tok") none none 3
      (c := ⟨"http://localhost:15500", 30, some "tok", none, none, 3⟩) rfl⟩

/-- Claim C10: every transaction operation (`multi`, `watch`, `unwatch`,
`discard`, `exec`) builds the same payload for `client_id=None` and
`client_id=""`, and that payload carries no `client_id` key — an
empty-string correlation identifier is treated exactly like an absent
one. -/
theorem transaction_empty_client_id_omitted :
    (∀ payload : List (String × Json),
      addClientId payload (some "") = payload
      ∧ addClientId payload none = payload)
    ∧ (TransactionManager.multiRequest (some "")
        = TransactionManager.multiRequest none
      ∧ (TransactionManager.multiRequest (some "")).payload.lookup "client_id"
        = none)
    ∧ (TransactionManager.discardRequest (some "")
        = TransactionManager.discardRequest none
      ∧ (TransactionManager.discardRequest (some "")).payload.lookup "client_id"
        = none)
    ∧ (TransactionManager.unwatchRequest (some "")
        = TransactionManager.unwatchRequest none
      ∧ (TransactionManager.unwatchRequest (some "")).payload.lookup "client_id"
        = none)
    ∧ (TransactionManager.execRequest (some "")
        = TransactionManager.execRequest none
      ∧ (TransactionManager.execRequest (some "")).payload.lookup "client_id"
        = none)
    ∧ (∀ keys : List String,
      TransactionManager.watchRequest keys (some "")
        = TransactionManager.watchRequest keys none
      ∧ ∀ req, TransactionManager.watchRequest keys (some "") = .ok req →
          req.payload.lookup "client_id" = none) := by
  refine ⟨fun payload => ⟨by simp [addClientId], rfl⟩,
    ⟨rfl, rfl⟩, ⟨rfl, rfl⟩, ⟨rfl, rfl⟩, ⟨rfl, rfl⟩, fun keys => ⟨?_, ?_⟩⟩
  · simp [TransactionManager.watchRequest, addClientId]
  · intro req h
    unfold TransactionManager.watchRequest at h
    split at h
    · exact Except.noConfusion h
    · obtain rfl := (Except.ok.inj h).symm
      rfl

/-- Witness for C10 at concrete inputs: `watch(["k"])` with an
empty-string identifier builds the same request as with no identifier,
and its payload has no `client_id` key. -/
theorem transaction_empty_client_id_witness :
    addClientId [("keys", Json.arr [Json.str "k"])] (some "")
      = [("keys", Json.arr [Json.str "k"])]
    ∧ TransactionManager.watchRequest ["k"] (some "")
      = TransactionManager.watchRequest ["k"] none
    ∧ (Request.mk "transaction.watch"
        [("keys", Json.arr [Json.str "k"])]).payload.lookup "client_id"
      = none :=
  ⟨(transaction_empty_client_id_omitted).1 [("keys", Json.arr [Json.str "k"])] |>.1,
    ((transaction_empty_client_id_omitted).2.2.2.2.2 ["k"]).1,
    ((transaction_empty_client_id_omitted).2.2.2.2.2 ["k"]).2
      ⟨"transaction.watch", [("keys", Json.arr [Json.str "k"])]⟩ rfl⟩

end Synap
